import Mathlib

/-!
Shallow embedding of `server.js`, the PayCash gateway backend.

The server is a stateless HTTP gateway: each route handler validates a few
request fields, optionally issues one outbound call to the PayDunya API, and
reshapes the upstream response into a small JSON envelope.  We embed:

* JavaScript values (`JSVal`) as they appear in JSON bodies, together with
  JS truthiness, nullish-ness, property access and string coercion;
* the helper `extractCheckoutUrl` from `server.js`;
* every route handler as a pure function from the inbound request (and an
  oracle describing the outcome of the single outbound axios call) to the
  HTTP response it produces, paired with a record of the outbound call
  (the payload sent, or the token of the confirm URL), `none` meaning the
  handler returned before any outbound call was made.

The axios call outcome is modelled by `UpstreamResult`: a 2xx response with
its JSON body (`ok`), a non-2xx response carrying `err.response.data` and
`err.message` (`httpError`), or a network/timeout failure carrying only
`err.message` (`netError`).
-/

namespace PayCash

/-- JavaScript values occurring in JSON request/response bodies, plus
`undefined` (the result of accessing an absent property). Numbers are
modelled as integers; the routes never do arithmetic on them. -/
inductive JSVal where
  | undefined
  | null
  | bool (b : Bool)
  | num (n : Int)
  | str (s : String)
  | arr (elems : List JSVal)
  | obj (fields : List (String × JSVal))
deriving Repr

/-- JS truthiness: `undefined`, `null`, `false`, `0`, and `""` are falsy;
every other value (including every object and array) is truthy. -/
def truthy : JSVal → Bool
  | .undefined => false
  | .null => false
  | .bool b => b
  | .num n => n != 0
  | .str s => s != ""
  | .arr _ => true
  | .obj _ => true

/-- JS nullish-ness (the `??` and `?.` operators): only `null` and
`undefined` are nullish. -/
def nullish : JSVal → Bool
  | .undefined => true
  | .null => true
  | _ => false

/-- `typeof v === "string"`. -/
def isStr : JSVal → Bool
  | .str _ => true
  | _ => false

/-- Property access `v.k` on values where it does not throw: a field lookup
on objects, `undefined` on everything else (all accesses in `server.js` are
guarded by truthiness checks, so the throwing cases never arise). -/
def getField (v : JSVal) (k : String) : JSVal :=
  match v with
  | .obj fields =>
    match fields.lookup k with
    | some x => x
    | none => .undefined
  | _ => .undefined

/-- Optional chaining `v?.k`. -/
def optChain (v : JSVal) (k : String) : JSVal :=
  if nullish v then .undefined else getField v k

/-- The field list of an object (`Object.keys` iteration); empty for
non-objects. -/
def objFields : JSVal → List (String × JSVal)
  | .obj fields => fields
  | _ => []

mutual

/-- JS string coercion, as performed by template literals such as
`"Recharge PayCash via " + operator`. -/
def jsToString : JSVal → String
  | .undefined => "undefined"
  | .null => "null"
  | .bool b => if b then "true" else "false"
  | .num n => toString n
  | .str s => s
  | .arr elems => String.intercalate "," (jsToStringElems elems)
  | .obj _ => "[object Object]"

/-- Array elements under JS string coercion (`Array.prototype.join`):
`null` and `undefined` elements become the empty string. -/
def jsToStringElems : List JSVal → List String
  | [] => []
  | .null :: rest => "" :: jsToStringElems rest
  | .undefined :: rest => "" :: jsToStringElems rest
  | v :: rest => jsToString v :: jsToStringElems rest

end

/-- `typeof v === "string" && v.startsWith("http")`; the prefix test is
expressed on the character data of the string. -/
def startsHttp : JSVal → Bool
  | .str s => "http".data.isPrefixOf s.data
  | _ => false

/-- `extractCheckoutUrl` from `server.js`: a tolerant search for the hosted
checkout URL in the upstream invoice-create response. -/
def extractCheckoutUrl (invoiceObj : JSVal) : JSVal :=
  if !truthy invoiceObj then .null
  else if isStr invoiceObj then invoiceObj
  else
    let cu := getField invoiceObj "checkout_url"
    let pu := getField invoiceObj "payment_url"
    let iu := getField invoiceObj "invoice_url"
    if truthy cu && isStr cu then cu
    else if truthy pu && isStr pu then pu
    else if truthy iu && isStr iu then iu
    else if truthy cu && truthy (getField cu "payment_url") then
      getField cu "payment_url"
    else if truthy (getField invoiceObj "url") then getField invoiceObj "url"
    else
      match (objFields invoiceObj).find? (fun kv => startsHttp kv.2) with
      | some kv => kv.2
      | none => .null

/-- An HTTP response produced by a route handler: status code and body
(`res.json(x)` bodies are objects, `res.send(text)` bodies are strings). -/
structure HttpResponse where
  status : Nat
  body : JSVal
deriving Repr

/-- Outcome of the single outbound axios call a handler may perform. -/
inductive UpstreamResult where
  | ok (body : JSVal)
  | httpError (body : JSVal) (msg : String)
  | netError (msg : String)
deriving Repr

/-- The catch-block message `err.response?.data || err.message || dflt`. -/
def errMessage (respData : JSVal) (msg : String) (dflt : String) : JSVal :=
  if truthy respData then respData
  else if msg != "" then .str msg
  else .str dflt

/-- Strict equality `v === lit` against a string literal: true exactly when
`v` is that string (a non-string is never strictly equal to a string). -/
def strictEqStr (v : JSVal) (lit : String) : Bool :=
  match v with
  | .str s => s == lit
  | _ => false

/-- The invoice-creation payload `POST /recharge` builds for the upstream
`checkout-invoice/create` call: a single line item plus callback/IPN URLs.
`baseUrl` is the `BASE_URL` configuration and `enc` the runtime
`encodeURIComponent`. -/
def rechargePayload (baseUrl : String) (enc : String → String)
    (amount userId operator : JSVal) : JSVal :=
  .obj
    [("items", .arr
        [.obj [("name", .str ("Recharge PayCash via " ++ jsToString operator)),
               ("quantity", .num 1),
               ("unit_price", amount),
               ("total_price", amount)]]),
     ("total_amount", amount),
     ("callback_url", .str (baseUrl ++ "/paydunya_callback?userId="
                            ++ enc (jsToString userId))),
     ("ipn_url", .str (baseUrl ++ "/ipn"))]

/-- `POST /recharge` from `server.js`.  Returns the HTTP response together
with the payload POSTed to `checkout-invoice/create` (`none` when the
handler returned before the outbound call). -/
def rechargeHandler (baseUrl : String) (enc : String → String)
    (reqBody : JSVal) (upstream : UpstreamResult) :
    HttpResponse × Option JSVal :=
  let amount := getField reqBody "amount"
  let userId := getField reqBody "userId"
  let operator := getField reqBody "operator"
  if !truthy amount || !truthy userId || !truthy operator then
    (⟨400, .obj [("status", .str "error"),
                 ("message", .str "Champs manquants: amount, userId, operator")]⟩,
     none)
  else
    let payload := rechargePayload baseUrl enc amount userId operator
    match upstream with
    | .ok invoice =>
      let t0 := optChain invoice "token"
      let t1 := optChain invoice "invoice_token"
      let token := if nullish t0 then (if nullish t1 then .null else t1) else t0
      let extracted := extractCheckoutUrl invoice
      let payment_url := if truthy extracted then extracted else JSVal.null
      (⟨200, .obj [("status", .str "success"),
                   ("token", token),
                   ("payment_url", payment_url),
                   ("raw", invoice)]⟩,
       some payload)
    | .httpError respData msg =>
      (⟨500, .obj [("status", .str "error"),
                   ("message", errMessage respData msg "Erreur création facture")]⟩,
       some payload)
    | .netError msg =>
      (⟨500, .obj [("status", .str "error"),
                   ("message", errMessage .undefined msg "Erreur création facture")]⟩,
       some payload)

/-- `GET /invoice_status` from `server.js`.  `token` is `req.query.token`
(`.undefined` when the query parameter is absent).  The second component is
the token interpolated into the `checkout-invoice/confirm/` URL of the
outbound GET, `none` when no call was made. -/
def invoiceStatusHandler (token : JSVal) (upstream : UpstreamResult) :
    HttpResponse × Option String :=
  if !truthy token then
    (⟨400, .obj [("status", .str "error"), ("message", .str "token manquant")]⟩,
     none)
  else
    match upstream with
    | .ok d =>
      (⟨200, .obj [("status", .str "success"), ("data", d)]⟩,
       some (jsToString token))
    | .httpError respData msg =>
      (⟨500, .obj [("status", .str "error"),
                   ("message", errMessage respData msg "Erreur verify")]⟩,
       some (jsToString token))
    | .netError msg =>
      (⟨500, .obj [("status", .str "error"),
                   ("message", errMessage .undefined msg "Erreur verify")]⟩,
       some (jsToString token))

/-- `POST /ipn` from `server.js`.  The second component is the token
interpolated into the `checkout-invoice/confirm/` URL of the outbound GET,
`none` when the handler rejected the notification before calling out. -/
def ipnHandler (reqBody : JSVal) (upstream : UpstreamResult) :
    HttpResponse × Option String :=
  let invoice := getField reqBody "invoice"
  if !truthy invoice then
    (⟨400, .str "NO_INVOICE"⟩, none)
  else
    let token :=
      if truthy (getField invoice "token") then getField invoice "token"
      else if truthy (getField invoice "invoice_token") then
        getField invoice "invoice_token"
      else JSVal.null
    if !truthy token then
      (⟨400, .str "NO_TOKEN"⟩, none)
    else
      match upstream with
      | .ok d =>
        (⟨200, .obj [("status", .str "success"), ("data", d)]⟩,
         some (jsToString token))
      | .httpError _ _ => (⟨500, .str "ERROR"⟩, some (jsToString token))
      | .netError _ => (⟨500, .str "ERROR"⟩, some (jsToString token))

/-- The HTML page returned by `GET /paydunya_callback`, with the already
coerced `token` and `userId` strings interpolated. -/
def callbackHtml (token userId : String) : String :=
  "<html>\n    <head><meta charset=\"utf-8\"></head>\n    <body style=\"font-family: Arial, Helvetica, sans-serif; text-align:center; padding:30px;\">\n      <h2>Paiement reçu</h2>\n      <p>Token: <strong>" ++ token ++ "</strong></p>\n      <p>Utilisateur: <strong>" ++ userId ++ "</strong></p>\n      <p>Vous pouvez fermer cette page et retourner à l\x27application.</p>\n    </body>\n  </html>"

/-- `GET /paydunya_callback` from `server.js`: interpolates
`${token || ""}` and `${userId || ""}` into the acknowledgement page.
No outbound call is made. -/
def paydunyaCallbackHandler (token userId : JSVal) : HttpResponse :=
  ⟨200, .str (callbackHtml (if truthy token then jsToString token else "")
                           (if truthy userId then jsToString userId else ""))⟩

/-- The disbursement payload `POST /withdraw` builds for the upstream
`disburse` call: `withdraw_mode` is `"tmoney"` when `operator === "YAS"`
and `"flooz"` otherwise. -/
def withdrawPayload (amount phone operator : JSVal) : JSVal :=
  .obj
    [("account_alias", phone),
     ("amount", amount),
     ("withdraw_mode",
      .str (if strictEqStr operator "YAS" then "tmoney" else "flooz"))]

/-- `POST /withdraw` from `server.js`.  Returns the HTTP response together
with the payload POSTed to `disburse` (`none` when validation failed before
the outbound call). -/
def withdrawHandler (reqBody : JSVal) (upstream : UpstreamResult) :
    HttpResponse × Option JSVal :=
  let amount := getField reqBody "amount"
  let phone := getField reqBody "phone"
  let operator := getField reqBody "operator"
  if !truthy amount || !truthy phone || !truthy operator then
    (⟨400, .obj [("status", .str "error"),
                 ("message", .str "Champs manquants: amount, phone, operator")]⟩,
     none)
  else
    let payload := withdrawPayload amount phone operator
    match upstream with
    | .ok d =>
      (⟨200, .obj [("status", .str "success"), ("raw", d)]⟩, some payload)
    | .httpError respData msg =>
      (⟨500, .obj [("status", .str "error"),
                   ("message", errMessage respData msg "Erreur disburse")]⟩,
       some payload)
    | .netError msg =>
      (⟨500, .obj [("status", .str "error"),
                   ("message", errMessage .undefined msg "Erreur disburse")]⟩,
       some payload)

/-- The condition under which one of the explicitly named checks of
`extractCheckoutUrl` fires: a truthy string `checkout_url`, `payment_url`
or `invoice_url`, a truthy `checkout_url` with truthy nested `payment_url`,
or a truthy `url` field.  Mirrors the five guards of the source in order. -/
def namedHit (v : JSVal) : Bool :=
  (truthy (getField v "checkout_url") && isStr (getField v "checkout_url")) ||
  (truthy (getField v "payment_url") && isStr (getField v "payment_url")) ||
  (truthy (getField v "invoice_url") && isStr (getField v "invoice_url")) ||
  (truthy (getField v "checkout_url") &&
    truthy (getField (getField v "checkout_url") "payment_url")) ||
  truthy (getField v "url")

/-- The values the named checks of `extractCheckoutUrl` can return. -/
def urlCandidates (v : JSVal) : List JSVal :=
  [getField v "checkout_url", getField v "payment_url",
   getField v "invoice_url",
   getField (getField v "checkout_url") "payment_url", getField v "url"]

/-! ### Helper lemmas -/

theorem strictEqStr_iff (v : JSVal) (lit : String) :
    strictEqStr v lit = true ↔ v = .str lit := by
  cases v <;> simp [strictEqStr]

theorem truthy_undefined : truthy .undefined = false := rfl

theorem truthy_null : truthy .null = false := rfl

@[simp] theorem getField_obj_nil (k : String) :
    getField (.obj []) k = .undefined := rfl

@[simp] theorem getField_obj_cons (k k' : String) (v : JSVal)
    (rest : List (String × JSVal)) :
    getField (.obj ((k', v) :: rest)) k =
      if k == k' then v else getField (.obj rest) k := by
  cases h : k == k' <;> simp [getField, List.lookup, h]

@[simp] theorem getField_not_obj (v : JSVal) (k : String)
    (h : ∀ fields, v ≠ .obj fields) : getField v k = .undefined := by
  cases v <;> first | rfl | exact absurd rfl (h _)

/-! ### Claim theorems -/

/-- C8: whenever the upstream `disburse` call of `POST /withdraw` returns a
2xx response, the handler answers 200 with top-level status `"success"` and
the upstream body under `raw`, for every upstream body `d` — in particular
even when `d` itself reports a failure in its own `status` field. -/
theorem c8_withdraw_ok_always_success
    (reqBody d : JSVal)
    (ha : truthy (getField reqBody "amount") = true)
    (hp : truthy (getField reqBody "phone") = true)
    (ho : truthy (getField reqBody "operator") = true) :
    (withdrawHandler reqBody (.ok d)).1.status = 200 ∧
    getField (withdrawHandler reqBody (.ok d)).1.body "status" = .str "success" ∧
    getField (withdrawHandler reqBody (.ok d)).1.body "raw" = d := by
  simp [withdrawHandler, ha, hp, ho]

/-- Witness for C8 at a concrete request whose upstream 2xx body itself
says `status: "failed"`. -/
theorem c8_withdraw_ok_always_success_witness :
    (withdrawHandler
        (.obj [("amount", .num 500), ("phone", .str "90000000"),
               ("operator", .str "YAS")])
        (.ok (.obj [("status", .str "failed")]))).1.status = 200 ∧
    getField (withdrawHandler
        (.obj [("amount", .num 500), ("phone", .str "90000000"),
               ("operator", .str "YAS")])
        (.ok (.obj [("status", .str "failed")]))).1.body "status" =
      .str "success" ∧
    getField (withdrawHandler
        (.obj [("amount", .num 500), ("phone", .str "90000000"),
               ("operator", .str "YAS")])
        (.ok (.obj [("status", .str "failed")]))).1.body "raw" =
      .obj [("status", .str "failed")] :=
  c8_withdraw_ok_always_success _ _ rfl rfl rfl

/-- C5: for every `POST /withdraw` request passing field validation, the
payload sent to the upstream `disburse` endpoint carries
`withdraw_mode = "tmoney"` exactly when the request operator is the string
`"YAS"`, and `withdraw_mode = "flooz"` for every other operator value. -/
theorem c5_withdraw_mode_mapping
    (reqBody : JSVal) (upstream : UpstreamResult)
    (ha : truthy (getField reqBody "amount") = true)
    (hp : truthy (getField reqBody "phone") = true)
    (ho : truthy (getField reqBody "operator") = true) :
    ∃ p, (withdrawHandler reqBody upstream).2 = some p ∧
      ((getField reqBody "operator" = .str "YAS" ∧
        getField p "withdraw_mode" = .str "tmoney") ∨
       (getField reqBody "operator" ≠ .str "YAS" ∧
        getField p "withdraw_mode" = .str "flooz")) := by
  refine ⟨withdrawPayload (getField reqBody "amount") (getField reqBody "phone")
      (getField reqBody "operator"), ?_, ?_⟩
  · cases upstream <;> simp [withdrawHandler, ha, hp, ho]
  · by_cases hYAS : getField reqBody "operator" = .str "YAS"
    · refine Or.inl ⟨hYAS, ?_⟩
      have h := (strictEqStr_iff (getField reqBody "operator") "YAS").mpr hYAS
      simp [withdrawPayload, h]
    · refine Or.inr ⟨hYAS, ?_⟩
      cases h : strictEqStr (getField reqBody "operator") "YAS" with
      | true => exact absurd ((strictEqStr_iff _ _).mp h) hYAS
      | false => simp [withdrawPayload, h]

/-- Witness for C5 at a concrete request with operator `"MOOV"`
(not `"YAS"`). -/
theorem c5_withdraw_mode_mapping_witness :
    ∃ p, (withdrawHandler
        (.obj [("amount", .num 500), ("phone", .str "90000000"),
               ("operator", .str "MOOV")])
        (.ok .null)).2 = some p ∧
      ((getField (JSVal.obj [("amount", .num 500), ("phone", .str "90000000"),
               ("operator", .str "MOOV")]) "operator" = .str "YAS" ∧
        getField p "withdraw_mode" = .str "tmoney") ∨
       (getField (JSVal.obj [("amount", .num 500), ("phone", .str "90000000"),
               ("operator", .str "MOOV")]) "operator" ≠ .str "YAS" ∧
        getField p "withdraw_mode" = .str "flooz")) :=
  c5_withdraw_mode_mapping _ _ rfl rfl rfl

/-- C6: for every `GET /invoice_status` request whose `token` query
parameter is present (truthy), the handler issues the upstream confirm call
for exactly that token, and on a 2xx upstream response returns the upstream
payload unmodified inside the envelope
`\x7bstatus: "success", data: <payload>\x7d` with HTTP 200. -/
theorem c6_invoice_status_confirm_and_wrap
    (token : JSVal) (upstream : UpstreamResult)
    (ht : truthy token = true) :
    (invoiceStatusHandler token upstream).2 = some (jsToString token) ∧
    ∀ d, upstream = .ok d →
      (invoiceStatusHandler token upstream).1 =
        ⟨200, .obj [("status", .str "success"), ("data", d)]⟩ := by
  constructor
  · cases upstream <;> simp [invoiceStatusHandler, ht]
  · rintro d rfl
    simp [invoiceStatusHandler, ht]

/-- C3: for every `/recharge`, `/invoice_status`, or `/withdraw` request in
which a required field is absent (its property access yields `undefined`),
the handler answers 400 with a descriptive message and performs no outbound
upstream call (the recorded outbound payload is `none`). -/
theorem c3_missing_field_400_no_call
    (baseUrl : String) (enc : String → String)
    (rb : JSVal) (up1 : UpstreamResult)
    (qtoken : JSVal) (up2 : UpstreamResult)
    (wb : JSVal) (up3 : UpstreamResult) :
    ((getField rb "amount" = .undefined ∨ getField rb "userId" = .undefined ∨
      getField rb "operator" = .undefined) →
      (rechargeHandler baseUrl enc rb up1).1.status = 400 ∧
      getField (rechargeHandler baseUrl enc rb up1).1.body "message" =
        .str "Champs manquants: amount, userId, operator" ∧
      (rechargeHandler baseUrl enc rb up1).2 = none) ∧
    (qtoken = .undefined →
      (invoiceStatusHandler qtoken up2).1.status = 400 ∧
      getField (invoiceStatusHandler qtoken up2).1.body "message" =
        .str "token manquant" ∧
      (invoiceStatusHandler qtoken up2).2 = none) ∧
    ((getField wb "amount" = .undefined ∨ getField wb "phone" = .undefined ∨
      getField wb "operator" = .undefined) →
      (withdrawHandler wb up3).1.status = 400 ∧
      getField (withdrawHandler wb up3).1.body "message" =
        .str "Champs manquants: amount, phone, operator" ∧
      (withdrawHandler wb up3).2 = none) := by
  refine ⟨?_, ?_, ?_⟩
  · rintro (h | h | h) <;> simp [rechargeHandler, h, truthy]
  · rintro rfl
    simp [invoiceStatusHandler, truthy]
  · rintro (h | h | h) <;> simp [withdrawHandler, h, truthy]

/-- Witness for C3: empty request bodies and an absent query token. -/
theorem c3_missing_field_400_no_call_witness :
    ((rechargeHandler "http://localhost:3000" id (.obj []) (.ok .null)).1.status
        = 400 ∧
      getField (rechargeHandler "http://localhost:3000" id (.obj [])
        (.ok .null)).1.body "message" =
        .str "Champs manquants: amount, userId, operator" ∧
      (rechargeHandler "http://localhost:3000" id (.obj []) (.ok .null)).2 =
        none) ∧
    ((invoiceStatusHandler .undefined (.ok .null)).1.status = 400 ∧
      getField (invoiceStatusHandler .undefined (.ok .null)).1.body "message" =
        .str "token manquant" ∧
      (invoiceStatusHandler .undefined (.ok .null)).2 = none) ∧
    ((withdrawHandler (.obj [("amount", .num 500)]) (.ok .null)).1.status
        = 400 ∧
      getField (withdrawHandler (.obj [("amount", .num 500)])
        (.ok .null)).1.body "message" =
        .str "Champs manquants: amount, phone, operator" ∧
      (withdrawHandler (.obj [("amount", .num 500)]) (.ok .null)).2 = none) := by
  have h := c3_missing_field_400_no_call "http://localhost:3000" id
    (.obj []) (.ok .null) .undefined (.ok .null)
    (.obj [("amount", .num 500)]) (.ok .null)
  exact ⟨h.1 (Or.inl rfl), h.2.1 rfl, h.2.2 (Or.inr (Or.inl rfl))⟩

/-- C9: when the upstream invoice-create call of `POST /recharge` returns a
2xx object containing no `token` or `invoice_token` field, none of the
known URL field names, and no string field starting with `"http"`, the
handler still answers 200 with status `"success"`, `token` null and
`payment_url` null. -/
theorem c9_recharge_ok_without_token_or_url
    (baseUrl : String) (enc : String → String) (rb : JSVal)
    (fs : List (String × JSVal))
    (ha : truthy (getField rb "amount") = true)
    (hu : truthy (getField rb "userId") = true)
    (ho : truthy (getField rb "operator") = true)
    (hnone : ∀ k, k ∈ ["token", "invoice_token", "checkout_url",
        "payment_url", "invoice_url", "url"] → fs.lookup k = none)
    (hhttp : ∀ kv ∈ fs, startsHttp kv.2 = false) :
    (rechargeHandler baseUrl enc rb (.ok (.obj fs))).1.status = 200 ∧
    getField (rechargeHandler baseUrl enc rb (.ok (.obj fs))).1.body "status" =
      .str "success" ∧
    getField (rechargeHandler baseUrl enc rb (.ok (.obj fs))).1.body "token" =
      .null ∧
    getField (rechargeHandler baseUrl enc rb
        (.ok (.obj fs))).1.body "payment_url" = .null := by
  have gf : ∀ k, k ∈ ["token", "invoice_token", "checkout_url",
      "payment_url", "invoice_url", "url"] →
      getField (JSVal.obj fs) k = .undefined := by
    intro k hk
    simp [getField, hnone k hk]
  have hfind : fs.find? (fun kv => startsHttp kv.2) = none :=
    List.find?_eq_none.mpr (by intro kv hkv; simp [hhttp kv hkv])
  have hext : extractCheckoutUrl (.obj fs) = .null := by
    simp [extractCheckoutUrl, truthy, isStr, objFields,
      gf "checkout_url" (by simp), gf "payment_url" (by simp),
      gf "invoice_url" (by simp), gf "url" (by simp), hfind]
  simp [rechargeHandler, ha, hu, ho, optChain, nullish, truthy_null, hext,
    gf "token" (by simp), gf "invoice_token" (by simp)]

/-- Witness for C9: upstream 2xx body `\x7bfoo: "bar"\x7d`. -/
theorem c9_recharge_ok_without_token_or_url_witness :
    (rechargeHandler "http://localhost:3000" id
        (.obj [("amount", .num 500), ("userId", .str "u1"),
               ("operator", .str "YAS")])
        (.ok (.obj [("foo", .str "bar")]))).1.status = 200 ∧
    getField (rechargeHandler "http://localhost:3000" id
        (.obj [("amount", .num 500), ("userId", .str "u1"),
               ("operator", .str "YAS")])
        (.ok (.obj [("foo", .str "bar")]))).1.body "status" = .str "success" ∧
    getField (rechargeHandler "http://localhost:3000" id
        (.obj [("amount", .num 500), ("userId", .str "u1"),
               ("operator", .str "YAS")])
        (.ok (.obj [("foo", .str "bar")]))).1.body "token" = .null ∧
    getField (rechargeHandler "http://localhost:3000" id
        (.obj [("amount", .num 500), ("userId", .str "u1"),
               ("operator", .str "YAS")])
        (.ok (.obj [("foo", .str "bar")]))).1.body "payment_url" = .null :=
  c9_recharge_ok_without_token_or_url _ _ _ _ rfl rfl rfl
    (by intro k hk; fin_cases hk <;> rfl)
    (by intro kv hkv; fin_cases hkv; rfl)

/-- C10: field validation on `/recharge` and `/withdraw` is JS truthiness —
an amount equal to 0 or an empty-string field is rejected with 400 exactly
like a missing field, while a negative amount passes validation and is
forwarded upstream unchanged in the outbound payload. -/
theorem c10_truthiness_validation
    (baseUrl : String) (enc : String → String)
    (rb wb rb2 wb2 : JSVal) (up : UpstreamResult) (a : Int) :
    (getField rb "amount" = .num 0 →
      (rechargeHandler baseUrl enc rb up).1.status = 400 ∧
      (rechargeHandler baseUrl enc rb up).2 = none) ∧
    (getField rb "userId" = .str "" →
      (rechargeHandler baseUrl enc rb up).1.status = 400 ∧
      (rechargeHandler baseUrl enc rb up).2 = none) ∧
    (getField wb "amount" = .num 0 →
      (withdrawHandler wb up).1.status = 400 ∧
      (withdrawHandler wb up).2 = none) ∧
    (getField wb "phone" = .str "" →
      (withdrawHandler wb up).1.status = 400 ∧
      (withdrawHandler wb up).2 = none) ∧
    (a < 0 →
      getField rb2 "amount" = .num a →
      truthy (getField rb2 "userId") = true →
      truthy (getField rb2 "operator") = true →
      ∃ p, (rechargeHandler baseUrl enc rb2 up).2 = some p ∧
        getField p "total_amount" = .num a ∧
        ∃ item, getField p "items" = .arr [item] ∧
          getField item "unit_price" = .num a ∧
          getField item "total_price" = .num a) ∧
    (a < 0 →
      getField wb2 "amount" = .num a →
      truthy (getField wb2 "phone") = true →
      truthy (getField wb2 "operator") = true →
      ∃ p, (withdrawHandler wb2 up).2 = some p ∧
        getField p "amount" = .num a) := by
  refine ⟨?_, ?_, ?_, ?_, ?_, ?_⟩
  · intro h
    simp [rechargeHandler, h, truthy]
  · intro h
    simp [rechargeHandler, h, truthy]
  · intro h
    simp [withdrawHandler, h, truthy]
  · intro h
    simp [withdrawHandler, h, truthy]
  · intro hneg h hu ho
    have hta : truthy (getField rb2 "amount") = true := by
      simp only [h, truthy]
      simp only [bne_iff_ne, ne_eq, decide_not]
      omega
    refine ⟨rechargePayload baseUrl enc (getField rb2 "amount")
      (getField rb2 "userId") (getField rb2 "operator"), ?_, ?_⟩
    · cases up <;> simp [rechargeHandler, hta, hu, ho]
    · constructor
      · simp [rechargePayload, h]
      · refine ⟨.obj [("name",
            .str ("Recharge PayCash via " ++ jsToString (getField rb2 "operator"))),
            ("quantity", .num 1), ("unit_price", .num a),
            ("total_price", .num a)], ?_, ?_, ?_⟩
        · simp [rechargePayload, h]
        · simp
        · simp
  · intro hneg h hp ho
    have hta : truthy (getField wb2 "amount") = true := by
      simp only [h, truthy]
      simp only [bne_iff_ne, ne_eq, decide_not]
      omega
    refine ⟨withdrawPayload (getField wb2 "amount") (getField wb2 "phone")
      (getField wb2 "operator"), ?_, ?_⟩
    · cases up <;> simp [withdrawHandler, hta, hp, ho]
    · simp [withdrawPayload, h]

/-- Witness for C10: zero amounts, an empty userId/phone, and the negative
amount −250 forwarded unchanged. -/
theorem c10_truthiness_validation_witness :
    ((rechargeHandler "http://localhost:3000" id
        (.obj [("amount", .num 0), ("userId", .str "u1"),
               ("operator", .str "YAS")]) (.ok .null)).1.status = 400 ∧
      (rechargeHandler "http://localhost:3000" id
        (.obj [("amount", .num 0), ("userId", .str "u1"),
               ("operator", .str "YAS")]) (.ok .null)).2 = none) ∧
    ((withdrawHandler
        (.obj [("amount", .num 500), ("phone", .str "")]) (.ok .null)).1.status
        = 400 ∧
      (withdrawHandler
        (.obj [("amount", .num 500), ("phone", .str "")]) (.ok .null)).2 =
        none) ∧
    (∃ p, (rechargeHandler "http://localhost:3000" id
        (.obj [("amount", .num (-250)), ("userId", .str "u1"),
               ("operator", .str "YAS")]) (.ok .null)).2 = some p ∧
      getField p "total_amount" = .num (-250) ∧
      ∃ item, getField p "items" = .arr [item] ∧
        getField item "unit_price" = .num (-250) ∧
        getField item "total_price" = .num (-250)) := by
  refine ⟨?_, ?_, ?_⟩
  · exact (c10_truthiness_validation "http://localhost:3000" id
      (.obj [("amount", .num 0), ("userId", .str "u1"),
             ("operator", .str "YAS")]) (.obj []) (.obj []) (.obj [])
      (.ok .null) 0).1 rfl
  · exact (c10_truthiness_validation "http://localhost:3000" id
      (.obj []) (.obj [("amount", .num 500), ("phone", .str "")])
      (.obj []) (.obj []) (.ok .null) 0).2.2.2.1 rfl
  · exact (c10_truthiness_validation "http://localhost:3000" id
      (.obj []) (.obj [])
      (.obj [("amount", .num (-250)), ("userId", .str "u1"),
             ("operator", .str "YAS")]) (.obj []) (.ok .null)
      (-250)).2.2.2.2.1 (by norm_num) rfl rfl rfl

/-- The coercion `${v || ""}` applied to a string query parameter is the
identity: a non-empty string is truthy and coerces to itself, and the empty
string falls through to `""`. -/
theorem strCoerceOrEmpty (t : String) :
    (if truthy (.str t) then jsToString (.str t) else "") = t := by
  by_cases h : t = ""
  · subst h
    rfl
  · have ht : truthy (.str t) = true := by simp [truthy, h]
    simp [ht, jsToString]

/-- C7: for all string query parameters `token` and `userId`, the HTML page
returned by `GET /paydunya_callback` contains both values verbatim,
character for character, with no escaping: the body decomposes as literal
HTML around the raw `token` and `userId` strings. -/
theorem c7_callback_echoes_verbatim (t u : String) :
    ∃ before mid after : String,
      (paydunyaCallbackHandler (.str t) (.str u)).body =
        .str (before ++ t ++ mid ++ u ++ after) := by
  refine ⟨"<html>\n    <head><meta charset=\"utf-8\"></head>\n    <body style=\"font-family: Arial, Helvetica, sans-serif; text-align:center; padding:30px;\">\n      <h2>Paiement reçu</h2>\n      <p>Token: <strong>",
    "</strong></p>\n      <p>Utilisateur: <strong>",
    "</strong></p>\n      <p>Vous pouvez fermer cette page et retourner à l\x27application.</p>\n    </body>\n  </html>", ?_⟩
  simp [paydunyaCallbackHandler, callbackHtml, strCoerceOrEmpty]

/-- Witness for C6 at the concrete token `"tok42"`. -/
theorem c6_invoice_status_confirm_and_wrap_witness :
    (invoiceStatusHandler (.str "tok42")
        (.ok (.obj [("status", .str "completed")]))).2 = some "tok42" ∧
    ∀ d, UpstreamResult.ok (.obj [("status", .str "completed")]) =
        UpstreamResult.ok d →
      (invoiceStatusHandler (.str "tok42")
          (.ok (.obj [("status", .str "completed")]))).1 =
        ⟨200, .obj [("status", .str "success"), ("data", d)]⟩ :=
  c6_invoice_status_confirm_and_wrap (.str "tok42") _ rfl

/-- C1 counterexample: an upstream 2xx confirm response whose status is
`"pending"` (not `"completed"`).  The claim says the IPN handler's body then
reports a non-success result, but the handler answers with top-level status
`"success"` all the same. -/
theorem c1_counterexample_ipn_pending_reports_success :
    (ipnHandler (.obj [("invoice", .obj [("token", .str "tok1")])])
        (.ok (.obj [("status", .str "pending")]))).1.status = 200 ∧
    getField (ipnHandler (.obj [("invoice", .obj [("token", .str "tok1")])])
        (.ok (.obj [("status", .str "pending")]))).1.body "status" =
      .str "success" ∧
    JSVal.str "pending" ≠ .str "completed" := by
  refine ⟨rfl, rfl, by simp⟩

/-- C1 amended: on any 2xx upstream confirm response the IPN handler
responds 200 with the fixed envelope
`\x7bstatus: "success", data: <confirm payload>\x7d` — for the status
`"completed"` and for every other status value alike; a non-completed
status is visible only inside `data`, and the top level never reports a
non-success result. -/
theorem c1_amended_ipn_always_success_envelope
    (reqBody d : JSVal)
    (hinv : truthy (getField reqBody "invoice") = true)
    (htok : truthy (getField (getField reqBody "invoice") "token") = true ∨
            truthy (getField (getField reqBody "invoice") "invoice_token")
              = true) :
    (ipnHandler reqBody (.ok d)).1 =
      ⟨200, .obj [("status", .str "success"), ("data", d)]⟩ := by
  rcases htok with h | h
  · simp [ipnHandler, hinv, h]
  · by_cases h2 : truthy (getField (getField reqBody "invoice") "token") = true
    · simp [ipnHandler, hinv, h2]
    · simp only [Bool.not_eq_true] at h2
      simp [ipnHandler, hinv, h2, h, truthy_null]

/-- Witness for the amended C1, at a completed and a pending confirm
response. -/
theorem c1_amended_ipn_always_success_envelope_witness :
    (ipnHandler (.obj [("invoice", .obj [("token", .str "t1")])])
        (.ok (.obj [("status", .str "completed")]))).1 =
      ⟨200, .obj [("status", .str "success"),
                  ("data", .obj [("status", .str "completed")])]⟩ ∧
    (ipnHandler (.obj [("invoice", .obj [("invoice_token", .str "t2")])])
        (.ok (.obj [("status", .str "cancelled")]))).1 =
      ⟨200, .obj [("status", .str "success"),
                  ("data", .obj [("status", .str "cancelled")])]⟩ :=
  ⟨c1_amended_ipn_always_success_envelope _ _ rfl (Or.inl rfl),
   c1_amended_ipn_always_success_envelope _ _ rfl (Or.inr rfl)⟩

/-- C2 counterexample: the `/ipn` catch path.  On an upstream 5xx carrying
the error body `"upstream-boom"`, the handler answers 500 with the constant
text `"ERROR"`: the body is not the upstream payload, and has no `message`
field carrying it. -/
theorem c2_counterexample_ipn_drops_upstream_error :
    (ipnHandler (.obj [("invoice", .obj [("token", .str "tok1")])])
        (.httpError (.str "upstream-boom")
          "Request failed with status code 500")).1.status = 500 ∧
    (ipnHandler (.obj [("invoice", .obj [("token", .str "tok1")])])
        (.httpError (.str "upstream-boom")
          "Request failed with status code 500")).1.body = .str "ERROR" ∧
    getField (ipnHandler (.obj [("invoice", .obj [("token", .str "tok1")])])
        (.httpError (.str "upstream-boom")
          "Request failed with status code 500")).1.body "message" =
      .undefined ∧
    (ipnHandler (.obj [("invoice", .obj [("token", .str "tok1")])])
        (.httpError (.str "upstream-boom")
          "Request failed with status code 500")).1.body ≠
      .str "upstream-boom" := by
  refine ⟨rfl, rfl, rfl, ?_⟩
  show JSVal.str "ERROR" ≠ JSVal.str "upstream-boom"
  simp

/-- C2 amended: on an upstream 5xx with a truthy error body, `/recharge`,
`/invoice_status` and `/withdraw` respond 500 with that body as the
response's `message`; on a timeout they respond 500 as well.  `/ipn`
responds 500 with the constant text `"ERROR"`, which does not include the
upstream error payload. -/
theorem c2_amended_upstream_error_propagation
    (baseUrl : String) (enc : String → String)
    (rb wb ib qtoken errBody : JSVal) (msg : String)
    (hr1 : truthy (getField rb "amount") = true)
    (hr2 : truthy (getField rb "userId") = true)
    (hr3 : truthy (getField rb "operator") = true)
    (hw1 : truthy (getField wb "amount") = true)
    (hw2 : truthy (getField wb "phone") = true)
    (hw3 : truthy (getField wb "operator") = true)
    (hq : truthy qtoken = true)
    (hi1 : truthy (getField ib "invoice") = true)
    (hi2 : truthy (getField (getField ib "invoice") "token") = true)
    (hb : truthy errBody = true) :
    ((rechargeHandler baseUrl enc rb (.httpError errBody msg)).1.status = 500 ∧
     getField (rechargeHandler baseUrl enc rb (.httpError errBody msg)).1.body
       "message" = errBody) ∧
    (rechargeHandler baseUrl enc rb (.netError msg)).1.status = 500 ∧
    ((invoiceStatusHandler qtoken (.httpError errBody msg)).1.status = 500 ∧
     getField (invoiceStatusHandler qtoken (.httpError errBody msg)).1.body
       "message" = errBody) ∧
    (invoiceStatusHandler qtoken (.netError msg)).1.status = 500 ∧
    ((withdrawHandler wb (.httpError errBody msg)).1.status = 500 ∧
     getField (withdrawHandler wb (.httpError errBody msg)).1.body "message" =
       errBody) ∧
    (withdrawHandler wb (.netError msg)).1.status = 500 ∧
    (ipnHandler ib (.httpError errBody msg)).1 = ⟨500, .str "ERROR"⟩ ∧
    (ipnHandler ib (.netError msg)).1 = ⟨500, .str "ERROR"⟩ := by
  refine ⟨⟨?_, ?_⟩, ?_, ⟨?_, ?_⟩, ?_, ⟨?_, ?_⟩, ?_, ?_, ?_⟩ <;>
    simp [rechargeHandler, invoiceStatusHandler, withdrawHandler, ipnHandler,
      errMessage, hr1, hr2, hr3, hw1, hw2, hw3, hq, hi1, hi2, hb]

/-- Witness for the amended C2 at concrete requests and the upstream error
body `"boom"`. -/
theorem c2_amended_upstream_error_propagation_witness :
    ((rechargeHandler "http://localhost:3000" id
        (.obj [("amount", .num 500), ("userId", .str "u1"),
               ("operator", .str "YAS")])
        (.httpError (.str "boom")
          "Request failed with status code 500")).1.status = 500 ∧
     getField (rechargeHandler "http://localhost:3000" id
        (.obj [("amount", .num 500), ("userId", .str "u1"),
               ("operator", .str "YAS")])
        (.httpError (.str "boom")
          "Request failed with status code 500")).1.body "message" =
       .str "boom") ∧
    (rechargeHandler "http://localhost:3000" id
        (.obj [("amount", .num 500), ("userId", .str "u1"),
               ("operator", .str "YAS")])
        (.netError "timeout of 15000ms exceeded")).1.status = 500 ∧
    ((invoiceStatusHandler (.str "tok42")
        (.httpError (.str "boom")
          "Request failed with status code 500")).1.status = 500 ∧
     getField (invoiceStatusHandler (.str "tok42")
        (.httpError (.str "boom")
          "Request failed with status code 500")).1.body "message" =
       .str "boom") ∧
    (invoiceStatusHandler (.str "tok42")
        (.netError "timeout of 10000ms exceeded")).1.status = 500 ∧
    ((withdrawHandler
        (.obj [("amount", .num 500), ("phone", .str "90000000"),
               ("operator", .str "MOOV")])
        (.httpError (.str "boom")
          "Request failed with status code 500")).1.status = 500 ∧
     getField (withdrawHandler
        (.obj [("amount", .num 500), ("phone", .str "90000000"),
               ("operator", .str "MOOV")])
        (.httpError (.str "boom")
          "Request failed with status code 500")).1.body "message" =
       .str "boom") ∧
    (withdrawHandler
        (.obj [("amount", .num 500), ("phone", .str "90000000"),
               ("operator", .str "MOOV")])
        (.netError "timeout of 15000ms exceeded")).1.status = 500 ∧
    (ipnHandler (.obj [("invoice", .obj [("token", .str "tok1")])])
        (.httpError (.str "boom") "Request failed with status code 500")).1 =
      ⟨500, .str "ERROR"⟩ ∧
    (ipnHandler (.obj [("invoice", .obj [("token", .str "tok1")])])
        (.netError "timeout of 10000ms exceeded")).1 =
      ⟨500, .str "ERROR"⟩ :=
  c2_amended_upstream_error_propagation "http://localhost:3000" id
    (.obj [("amount", .num 500), ("userId", .str "u1"),
           ("operator", .str "YAS")])
    (.obj [("amount", .num 500), ("phone", .str "90000000"),
           ("operator", .str "MOOV")])
    (.obj [("invoice", .obj [("token", .str "tok1")])])
    (.str "tok42") (.str "boom") "Request failed with status code 500"
    rfl rfl rfl rfl rfl rfl rfl rfl rfl rfl

/-- C4 counterexample: the object `\x7bcheckout_url: ""\x7d` contains the
string field `checkout_url`, yet the extractor returns `null` rather than
that value — empty-string fields are falsy and skipped by every check. -/
theorem c4_counterexample_empty_string_checkout_url :
    extractCheckoutUrl (.obj [("checkout_url", .str "")]) = .null ∧
    isStr (getField (.obj [("checkout_url", .str "")]) "checkout_url") =
      true ∧
    JSVal.null ≠ .str "" := by
  refine ⟨rfl, rfl, by simp⟩

/-- Case split for `extractCheckoutUrl` on objects: either one of the five
named guards fires (`namedHit`) and the result is one of the guarded
values, or none fires and the result is the first field whose value is a
string starting with `"http"` (or `null` if there is none). -/
theorem extractCheckoutUrl_obj_cases (fields : List (String × JSVal)) :
    (namedHit (.obj fields) = true ∧
      extractCheckoutUrl (.obj fields) ∈ urlCandidates (.obj fields)) ∨
    (namedHit (.obj fields) = false ∧
      extractCheckoutUrl (.obj fields) =
        (match fields.find? (fun kv => startsHttp kv.2) with
         | some kv => kv.2
         | none => .null)) := by
  have hred : extractCheckoutUrl (JSVal.obj fields) =
      (if truthy (getField (JSVal.obj fields) "checkout_url") &&
          isStr (getField (JSVal.obj fields) "checkout_url") then
         getField (JSVal.obj fields) "checkout_url"
       else if truthy (getField (JSVal.obj fields) "payment_url") &&
          isStr (getField (JSVal.obj fields) "payment_url") then
         getField (JSVal.obj fields) "payment_url"
       else if truthy (getField (JSVal.obj fields) "invoice_url") &&
          isStr (getField (JSVal.obj fields) "invoice_url") then
         getField (JSVal.obj fields) "invoice_url"
       else if truthy (getField (JSVal.obj fields) "checkout_url") &&
          truthy (getField (getField (JSVal.obj fields) "checkout_url")
            "payment_url") then
         getField (getField (JSVal.obj fields) "checkout_url") "payment_url"
       else if truthy (getField (JSVal.obj fields) "url") then
         getField (JSVal.obj fields) "url"
       else
         match fields.find? (fun kv => startsHttp kv.2) with
         | some kv => kv.2
         | none => .null) := rfl
  rw [hred]
  split_ifs with h1 h2 h3 h4 h5
  · exact Or.inl ⟨by simp [namedHit, h1], by simp [urlCandidates]⟩
  · exact Or.inl ⟨by simp [namedHit, h2], by simp [urlCandidates]⟩
  · exact Or.inl ⟨by simp [namedHit, h3], by simp [urlCandidates]⟩
  · exact Or.inl ⟨by simp [namedHit, h4], by simp [urlCandidates]⟩
  · exact Or.inl ⟨by simp [namedHit, h5], by simp [urlCandidates]⟩
  · simp only [Bool.not_eq_true] at h1 h2 h3 h4 h5
    refine Or.inr ⟨?_, rfl⟩
    simp [namedHit, h1, h2, h3, h4, h5]

/-- C4 amended: when one of the named guards qualifies — a non-empty string
`checkout_url`, `payment_url` or `invoice_url`, a truthy nested
`checkout_url.payment_url`, or a truthy `url` field of any type — the
extractor returns one of those values; when none qualifies but some field
holds a string starting with `"http"`, it returns such a field's value; and
when neither, it returns `null`. -/
theorem c4_amended_extractor (fields : List (String × JSVal)) :
    (namedHit (.obj fields) = true →
      extractCheckoutUrl (.obj fields) ∈ urlCandidates (.obj fields)) ∧
    (namedHit (.obj fields) = false →
      ((∃ kv ∈ fields, startsHttp kv.2 = true) →
        ∃ kv ∈ fields, kv.2 = extractCheckoutUrl (.obj fields) ∧
          startsHttp kv.2 = true) ∧
      ((∀ kv ∈ fields, startsHttp kv.2 = false) →
        extractCheckoutUrl (.obj fields) = .null)) := by
  rcases extractCheckoutUrl_obj_cases fields with ⟨hn, hmem⟩ | ⟨hn, heq⟩
  · refine ⟨fun _ => hmem, fun hfalse => absurd hn (by simp [hfalse])⟩
  · refine ⟨fun htrue => absurd htrue (by simp [hn]), fun _ => ⟨?_, ?_⟩⟩
    · rintro ⟨kv, hkv, hs⟩
      cases hfind : fields.find? (fun kv => startsHttp kv.2) with
      | none =>
        exact absurd hs (by simpa using List.find?_eq_none.mp hfind kv hkv)
      | some kv' =>
        have hp := List.find?_some hfind
        exact ⟨kv', List.mem_of_find?_eq_some hfind,
          by rw [heq, hfind], by simpa using hp⟩
    · intro hall
      have hnone : fields.find? (fun kv => startsHttp kv.2) = none :=
        List.find?_eq_none.mpr (fun kv hkv => by simp [hall kv hkv])
      rw [heq, hnone]

/-- Witness for the amended C4, exercising all three cases: a qualifying
`payment_url`, a fallback `http` string under another key, and an object
with neither. -/
theorem c4_amended_extractor_witness :
    extractCheckoutUrl (.obj [("payment_url", .str "https://pay.example")]) ∈
      urlCandidates (.obj [("payment_url", .str "https://pay.example")]) ∧
    (∃ kv ∈ [("foo", JSVal.str "https://fallback.example")],
      kv.2 = extractCheckoutUrl
          (.obj [("foo", JSVal.str "https://fallback.example")]) ∧
      startsHttp kv.2 = true) ∧
    extractCheckoutUrl (.obj [("foo", JSVal.str "bar")]) = .null := by
  refine ⟨(c4_amended_extractor
      [("payment_url", .str "https://pay.example")]).1 rfl, ?_, ?_⟩
  · exact ((c4_amended_extractor
      [("foo", JSVal.str "https://fallback.example")]).2 rfl).1
      ⟨("foo", JSVal.str "https://fallback.example"), by simp, rfl⟩
  · exact ((c4_amended_extractor [("foo", JSVal.str "bar")]).2 rfl).2
      (by intro kv hkv; fin_cases hkv; rfl)

end PayCash
